import Mathlib

/-!
Verification of the PropertyHelper/Gateway edge-gateway core against its
specification: the capability-token codec (src/security.py), the access
guard, and the orchestration/aggregation flows
(src/user_service_route.py, src/cashier_router.py,
src/face_recognition_route.py).

The embedding is shallow: each Python handler becomes a Lean function
over an explicit environment describing the downstream backends'
replies, returning an `Except`-style outcome together with the list of
downstream calls it issued.  Python exception propagation is made
explicit: an exception that the source catches is mapped to its
HTTP-error outcome, an exception the source does not catch becomes an
`uncaught` outcome.  Exception classes are modelled with the real
Python/`requests` class hierarchy, because several handlers select
exceptions by class (`except TimeoutError`, `except (TimeoutError,
ConnectionError)`).
-/

namespace Gateway

/-! ## Python-level base models: JSON values, exception classes, dicts -/

/-- A JSON value as produced by `json.loads` (Python maps JSON null to
`None`; we keep an explicit `null` constructor and translate the
`is None` checks where the source performs them). -/
inductive Json where
  | null
  | bool (b : Bool)
  | num (n : Int)
  | str (s : String)
  | arr (elems : List Json)
  | obj (fields : List (String × Json))

/-- Python exception classes appearing in the gateway's `try/except`
blocks, plus the classes the `requests` library actually raises. -/
inductive PyExcClass where
  | oSError              -- builtin OSError (= IOError)
  | timeoutError         -- builtin TimeoutError  (subclass of OSError)
  | connectionError      -- builtin ConnectionError (subclass of OSError)
  | requestException     -- requests.exceptions.RequestException (subclass of IOError)
  | reqConnectionError   -- requests.exceptions.ConnectionError (subclass of RequestException)
  | reqTimeout           -- requests.exceptions.Timeout (subclass of RequestException)
  | reqConnectTimeout    -- requests.exceptions.ConnectTimeout (subclass of both above)
  | reqReadTimeout       -- requests.exceptions.ReadTimeout (subclass of requests Timeout)
  | attributeError       -- builtin AttributeError
  | keyError             -- builtin KeyError
  | indexError           -- builtin IndexError
deriving DecidableEq, Repr

/-- Reflexive-transitive ancestor sets of the modelled exception
classes, following CPython and `requests.exceptions`.  Note that
`requests.exceptions.Timeout` derives from `RequestException`
(hence from `IOError`/`OSError`) but NOT from the builtin
`TimeoutError`; likewise `requests.exceptions.ConnectionError` is not a
subclass of the builtin `ConnectionError`. -/
def PyExcClass.ancestors : PyExcClass → List PyExcClass
  | .oSError => [.oSError]
  | .timeoutError => [.timeoutError, .oSError]
  | .connectionError => [.connectionError, .oSError]
  | .requestException => [.requestException, .oSError]
  | .reqConnectionError => [.reqConnectionError, .requestException, .oSError]
  | .reqTimeout => [.reqTimeout, .requestException, .oSError]
  | .reqConnectTimeout =>
      [.reqConnectTimeout, .reqConnectionError, .reqTimeout, .requestException, .oSError]
  | .reqReadTimeout => [.reqReadTimeout, .reqTimeout, .requestException, .oSError]
  | .attributeError => [.attributeError]
  | .keyError => [.keyError]
  | .indexError => [.indexError]

/-- `isSubclassOf c h`: an instance of class `c` is caught by an
`except h:` clause. -/
def PyExcClass.isSubclassOf (c h : PyExcClass) : Bool :=
  h ∈ c.ancestors

/-- `caughtBy c hs`: an instance of class `c` is caught by an
`except (hs...):` clause. -/
def PyExcClass.caughtBy (c : PyExcClass) (hs : List PyExcClass) : Bool :=
  hs.any fun h => c.isSubclassOf h

/-- First-match association-list lookup: the value a Python dict built
left-to-right (without key collisions) stores under `key`. -/
def dictFind : List (String × Json) → String → Option Json
  | [], _ => none
  | (k, v) :: rest, key => if k = key then some v else dictFind rest key

/-- Python `d.get(key)` observed through an `is None` test: yields
`none` both when the key is absent and when the stored value is JSON
null (Python `None`), exactly as the source code's `is None` /
truthiness checks cannot tell the two apart. -/
def pyDictGet (fields : List (String × Json)) (key : String) : Option Json :=
  match dictFind fields key with
  | some .null => none
  | r => r

/-- Python `d[key]`: raises `KeyError` when the key is absent. -/
def pyDictIndex (fields : List (String × Json)) (key : String) :
    Except PyExcClass Json :=
  match dictFind fields key with
  | none => .error .keyError
  | some v => .ok v

/-- Python truthiness of a decoded JSON value (`if not shop_id:`). -/
def Json.pyTruthy : Json → Bool
  | .null => false
  | .bool b => b
  | .num n => n ≠ 0
  | .str s => s ≠ ""
  | .arr es => !es.isEmpty
  | .obj fs => !fs.isEmpty

/-- Python `str(...)` applied to a decoded JSON value (used in
f-strings and request bodies); on the strings the gateway actually
stores this is the identity. -/
def Json.pyStr : Json → String
  | .null => "None"
  | .bool b => if b then "True" else "False"
  | .num n => toString n
  | .str s => s
  | .arr _ => "<list>"
  | .obj _ => "<dict>"

/-- Python `str(token.get(key))`: `str(None)` is `"None"`. -/
def pyStrOfOpt : Option Json → String
  | none => "None"
  | some j => j.pyStr

/-- Python `==` between a decoded JSON value and a `str` (source:
`decoded_payload["access_level"] == access_level.value`): only a JSON
string can compare equal to a Python string. -/
def jsonEqPyStr (j : Json) (s : String) : Bool :=
  match j with
  | .str s2 => s2 = s
  | _ => false

/-! ## src/security.py -/

/-- `AccessLevel` enum (src/security.py). -/
inductive AccessLevel where
  | USER_LEVEL
  | CASHIER_LEVEL
  | STORE_MANAGEMENT_LEVEL
deriving DecidableEq, Repr

/-- The `.value` string of each `AccessLevel` member. -/
def AccessLevel.value : AccessLevel → String
  | .USER_LEVEL => "User_Level"
  | .CASHIER_LEVEL => "Cashier_Level"
  | .STORE_MANAGEMENT_LEVEL => "Store_Management_Level"

/-- One dot-separated segment of a wire token, abstracted by its
observable decoding behaviour: `badB64` covers segments on which
`base64.b64decode(segment + "==")` raises (`binascii.Error`) or whose
bytes fail UTF-8 decoding; `nonJson` covers segments whose decoded text
`json.loads` rejects; `json j` covers segments decoding to the JSON
value `j`.  Every concrete Python string falls in exactly one class. -/
inductive SegWire where
  | badB64
  | nonJson
  | json (j : Json)

/-- A wire token: the list of its dot-separated segments, plus
`signedWith = some s` exactly when the token is a well-formed JWT whose
HMAC-SHA256 signature verifies under secret `s` (the PyJWT collaborator
is modelled by this field: `jwt.encode` produces it, `jwt.decode`
checks it). -/
structure TokenWire where
  segs : List SegWire
  signedWith : Option String

/-- Model of `jwt.encode(payload, secret, algorithm="HS256")`: three
segments — header, payload object, signature (signature bytes are not
JSON, hence `nonJson`) — signed with `secret`. -/
def jwt_encode (payload : List (String × Json)) (secret : String) : TokenWire :=
  { segs := [.json (.obj [("alg", .str "HS256"), ("typ", .str "JWT")]),
             .json (.obj payload),
             .nonJson],
    signedWith := some secret }

/-- Model of `jwt.decode(token, secret, algorithms="HS256")`: succeeds
exactly when the token's signature verifies under `secret` and its
payload segment is a JSON object, returning the claim dict; every other
case raises `jwt.PyJWTError`, modelled as `none` (the only caller
catches precisely that class). -/
def jwt_decode (t : TokenWire) (secret : String) :
    Option (List (String × Json)) :=
  match t.signedWith with
  | some s =>
      if s = secret then
        match t.segs.get? 1 with
        | some (.json (.obj fields)) => some fields
        | _ => none
      else none
  | none => none

/-- `issue_token` (src/security.py:20-36): signs the dict
`{"entity_id": entity_id, "access_level": access_level.value, **kwargs}`
with `secret`.  `kwargs` keys can never collide with the function's
parameter names (`entity_id`, `access_level`, `secret`) — Python would
reject the call with a `TypeError` — so the dict is the plain
concatenation below. -/
def issue_token (entity_id : String) (access_level : AccessLevel)
    (secret : String) (kwargs : List (String × String)) : TokenWire :=
  jwt_encode
    ([("entity_id", .str entity_id), ("access_level", .str access_level.value)]
      ++ kwargs.map fun p => (p.1, Json.str p.2))
    secret

/-- `verify_token` (src/security.py:39-41). -/
def verify_token (token : TokenWire) (supposed_secret : String) :
    Option (List (String × Json)) :=
  jwt_decode token supposed_secret

/-- `decode_segment` (src/security.py:44-56): base64-decode a segment,
then `json.loads` it; `binascii.Error`, `JSONDecodeError` and
`UnicodeDecodeError` are caught and give `None`.  A segment whose JSON
document is `null` also yields Python `None` (that is what
`json.loads("null")` returns), indistinguishable from the caught-error
case for every caller. -/
def decode_segment (segment : SegWire) : Option Json :=
  match segment with
  | .badB64 => none
  | .nonJson => none
  | .json .null => none
  | .json j => some j

/-- `token_has_access` (src/security.py:59-79).  `token.split(".")[1]`
raising `IndexError` is caught (→ `False`); `payload.get("entity_id")`
raises `AttributeError` when the decoded payload is not a dict (NOT
caught); `decoded_payload["access_level"]` raises `KeyError` when a
validly-signed payload lacks that key (NOT caught). -/
def token_has_access (token : TokenWire) (access_level : AccessLevel)
    (secret : String) : Except PyExcClass Bool :=
  match token.segs.get? 1 with
  | none => .ok false
  | some seg =>
    match decode_segment seg with
    | none => .ok false
    | some payload =>
      match payload with
      | .obj fields =>
        match pyDictGet fields "entity_id" with
        | none => .ok false
        | some _ =>
          match verify_token token secret with
          | none => .ok false
          | some decoded_payload =>
            match pyDictIndex decoded_payload "access_level" with
            | .error e => .error e
            | .ok v => .ok (jsonEqPyStr v access_level.value)
      | _ => .error .attributeError

/-- Outcome of the access guard on one request. -/
inductive GuardOutcome where
  | http (code : Nat)                       -- HTTPException(status_code=code)
  | uncaught (e : PyExcClass)               -- exception escaped the guard
  | admitted (payload : Option Json)        -- returned decode_segment(...)

/-- `ValidateHeader.__call__` (src/security.py:100-116) for a guard
constructed with `required_access_level` and `secret`; `token` is the
request's `token` header (absent ⇒ `None`). -/
def validate_header (required_access_level : AccessLevel) (secret : String)
    (token : Option TokenWire) : GuardOutcome :=
  match token with
  | none => .http 401
  | some t =>
    match token_has_access t required_access_level secret with
    | .error e => .uncaught e
    | .ok false => .http 403
    | .ok true =>
      match t.segs.get? 1 with
      | none => .uncaught .indexError
      | some seg => .admitted (decode_segment seg)

/-! ## Downstream calls and route outcomes

Each route handler is a function of its request data, the verified
token payload handed over by the guard (a claim dict), and an
environment recording what each downstream backend would reply to the
call the handler makes.  A downstream reply is either an HTTP response
(status code plus already-validated body) or a raised exception
class. -/

/-- Outcome of one `requests.post`/`requests.get` call: a response, or
an exception raised during the call. -/
inductive ReqOutcome (α : Type) where
  | resp (status : Nat) (body : α)
  | exc (e : PyExcClass)

/-- Terminal failure of a route handler: an `HTTPException` raised by
the handler itself, or a Python exception that escaped it. -/
inductive RouteErr where
  | http (code : Nat)
  | uncaught (e : PyExcClass)
deriving DecidableEq, Repr

/-! ## src/models.py (the shapes the claims mention) -/

/-- `User` (src/models.py). -/
structure User where
  uid : String
  first_name : String
  last_name : String
  user_name : String
  email : String
  date_of_birth : String
  gender : String
  nationality : String
deriving DecidableEq, Repr

/-- `UserPublicProfile` (src/models.py). -/
structure UserPublicProfile where
  uid : String
  first_name : String
  user_name : String
deriving DecidableEq, Repr

/-- `UserLogInRequest` (src/models.py). -/
structure UserLogInRequest where
  email : String
  password : String
deriving DecidableEq, Repr

/-- `LogInSuccessful` (src/models.py); the `token` field carries the
issued wire token. -/
structure LogInSuccessful where
  msg : String
  token : TokenWire

/-- `RecognitionResult` (src/models.py) — field name `assummed_new` as
in the source. -/
structure RecognitionResult where
  user : Option UserPublicProfile
  uid : String
  assummed_new : Bool
deriving DecidableEq, Repr

/-- `ItemCreate` (src/models.py): a transaction line item. -/
structure ItemCreate where
  item_id : String
  quantity : Int
  unit_cost : Int
  point_allocation_percentage : Int
deriving DecidableEq, Repr

/-- `Item` (src/models.py). -/
structure Item extends ItemCreate where
  total_cost : Int
deriving DecidableEq, Repr

/-- `Transaction` (src/models.py). -/
structure Transaction where
  user_id : String
  shop_id : String
  tid : String
  total_cost : Int
  points_allocated : Int
  performed_at : String
  items : List Item
deriving DecidableEq, Repr

/-- `FrontendTransaction` (src/models.py): a `Transaction` enriched
with a shop name. -/
structure FrontendTransaction extends Transaction where
  shop_name : String
deriving DecidableEq, Repr

/-- `FrontendTransactionResponse` (src/models.py). -/
structure FrontendTransactionResponse where
  transactions : List FrontendTransaction
deriving DecidableEq, Repr

/-- `UserBalances` (src/models.py): per-shop balances from the
transaction ledger. -/
structure UserBalances where
  user_id : String
  shops : List (String × Int)
deriving DecidableEq, Repr

/-- `FrontendUserBalances` (src/models.py): shop ids replaced by shop
names. -/
structure FrontendUserBalances where
  user_id : String
  shops : List (String × Int)
deriving DecidableEq, Repr

/-- `ItemInventory` (src/models.py): an item record returned by the
shop/inventory backend. -/
structure ItemInventory where
  name : String
  description : String
  photo_url : Option String
  price : Int
  percent_point_allocation : Int
  shop_id : String
  iid : String
deriving DecidableEq, Repr

/-- `ShopInventoryItems` (src/models.py). -/
structure ShopInventoryItems where
  items : List ItemInventory
  total : Nat
deriving DecidableEq, Repr

/-- `SelectedItems` (src/models.py). -/
structure SelectedItems where
  item_id_list : List String
deriving DecidableEq, Repr

/-- `TransactionCreateFromFrontend` (src/models.py). -/
structure TransactionCreateFromFrontend where
  user_id : String
  item_id_quantity : List (String × Int)
deriving DecidableEq, Repr

/-! ## src/user_service_route.py -/

/-- The line-item dict built by `record_transaction`
(src/cashier_router.py:175). -/
structure LineItem where
  item_id : String
  quantity : Int
  unit_cost : Int
  point_allocation_percentage : Int
deriving DecidableEq, Repr

/-- The JSON body `record_transaction` posts to the ledger backend
(src/cashier_router.py:172-176). -/
structure LedgerRequest where
  shop_id : String
  user_id : String
  items : List LineItem
deriving DecidableEq, Repr

/-- Backend environment of `login_user`: the user backend's reply to
`POST /user/login`. -/
structure LoginEnv where
  loginOutcome : ReqOutcome User

/-- `login_user` (src/user_service_route.py:14-40).  The `try` around
the call catches ONLY the builtin `TimeoutError` (mapped to HTTP 550);
any other exception class — including everything the `requests`
library actually raises — escapes. -/
def login_user (_login_request : UserLogInRequest) (secret : String)
    (env : LoginEnv) : Except RouteErr LogInSuccessful :=
  match env.loginOutcome with
  | .exc c =>
      if c.caughtBy [.timeoutError] then .error (.http 550)
      else .error (.uncaught c)
  | .resp status user =>
      if status = 403 then .error (.http 403)
      else .ok { msg := "success",
                 token := issue_token user.uid .USER_LEVEL secret [] }

/-- Backend environment of `get_user_balance`: the ledger backend's
reply to `GET /userdata/{uid}` and the shop backend's reply to
`POST /shop/names`. -/
structure BalanceEnv where
  balancesOutcome : ReqOutcome UserBalances
  namesOutcome : ReqOutcome (List String)

/-- `get_user_balance` (src/user_service_route.py:97-128): fetch the
per-shop balances, batch-resolve the shop ids to names, and zip the
names positionally with the balances — `zip` and nothing else: there
is no length comparison between the two lists. -/
def get_user_balance (token : List (String × Json)) (env : BalanceEnv) :
    Except RouteErr FrontendUserBalances :=
  match pyDictIndex token "entity_id" with
  | .error e => .error (.uncaught e)
  | .ok uid =>
    match env.balancesOutcome with
    | .exc c =>
        if c.caughtBy [.timeoutError, .connectionError] then .error (.http 550)
        else .error (.uncaught c)
    | .resp _ user_balances =>
      let balances := user_balances.shops.map fun record => record.2
      match env.namesOutcome with
      | .exc c =>
          if c.caughtBy [.timeoutError, .connectionError] then .error (.http 550)
          else .error (.uncaught c)
      | .resp _ names =>
          .ok { user_id := uid.pyStr, shops := List.zip names balances }

/-- Backend environment of `get_user_transactions`: the ledger
backend's reply to `GET /userdata/transactions/{uid}` and the shop
backend's reply to `POST /shop/names`. -/
structure TransactionsEnv where
  transactionsOutcome : ReqOutcome (List Transaction)
  namesOutcome : ReqOutcome (List String)

/-- `get_user_transactions` (src/user_service_route.py:59-95): fetch a
page of transactions, batch-resolve their shop ids to names, and pair
each transaction with a name by positional `zip` — again with no
length check. -/
def get_user_transactions (_offset _limit : Int)
    (token : List (String × Json)) (env : TransactionsEnv) :
    Except RouteErr FrontendTransactionResponse :=
  match pyDictIndex token "entity_id" with
  | .error e => .error (.uncaught e)
  | .ok _uid =>
    match env.transactionsOutcome with
    | .exc c =>
        if c.caughtBy [.timeoutError, .connectionError] then .error (.http 550)
        else .error (.uncaught c)
    | .resp _ transactions =>
      match env.namesOutcome with
      | .exc c =>
          if c.caughtBy [.timeoutError, .connectionError] then .error (.http 550)
          else .error (.uncaught c)
      | .resp _ names =>
          .ok { transactions :=
                  List.zipWith (fun transaction shop_name =>
                    { toTransaction := transaction, shop_name := shop_name })
                    transactions names }

/-! ## src/cashier_router.py -/

/-- One downstream call issued by a cashier-route handler, with the
data it carried. -/
inductive CashierCall where
  | shopItems (shop_id : String)            -- GET /shop/{shop_id}/items
  | itemsGet (item_id_list : List String)   -- POST /items/get
  | ledgerCreate (data : LedgerRequest)     -- POST /userdata/transaction
deriving DecidableEq, Repr

/-- Backend environment of the cashier routes: the shop backend's
replies to the inventory listing and the batched item lookup, and the
ledger backend's reply to transaction creation. -/
structure CashierEnv where
  inventoryOutcome : ReqOutcome ShopInventoryItems
  itemsOutcome : ReqOutcome (List ItemInventory)
  ledgerOutcome : ReqOutcome Transaction

/-- `get_inventory` (src/cashier_router.py:42-61): reject with 401
when the token carries no (truthy) `shop_id` claim, before any
downstream call; otherwise list the shop's items.  The `except` clause
names only the builtin `TimeoutError`. -/
def get_inventory (token : List (String × Json)) (env : CashierEnv) :
    Except RouteErr ShopInventoryItems × List CashierCall :=
  match pyDictGet token "shop_id" with
  | none => (.error (.http 401), [])
  | some shop_id =>
    if !shop_id.pyTruthy then (.error (.http 401), [])
    else
      match env.inventoryOutcome with
      | .exc c =>
          if c.caughtBy [.timeoutError] then
            (.error (.http 550), [.shopItems shop_id.pyStr])
          else (.error (.uncaught c), [.shopItems shop_id.pyStr])
      | .resp _ inventory => (.ok inventory, [.shopItems shop_id.pyStr])

/-- `get_items_details` (src/cashier_router.py:135-156): reject with
401 when the token carries no (truthy) `shop_id` claim, before any
downstream call; otherwise post the id list to the shop backend and
wrap its reply, with `total` set to the reply's length. -/
def get_items_details (selected_items : SelectedItems)
    (token : List (String × Json)) (env : CashierEnv) :
    Except RouteErr ShopInventoryItems × List CashierCall :=
  match pyDictGet token "shop_id" with
  | none => (.error (.http 401), [])
  | some shop_id =>
    if !shop_id.pyTruthy then (.error (.http 401), [])
    else
      let ids := selected_items.item_id_list
      match env.itemsOutcome with
      | .exc c =>
          if c.caughtBy [.timeoutError] then (.error (.http 550), [.itemsGet ids])
          else (.error (.uncaught c), [.itemsGet ids])
      | .resp _ jsonned =>
          (.ok { items := jsonned, total := jsonned.length }, [.itemsGet ids])

/-- `record_transaction` (src/cashier_router.py:159-184): resolve the
requested item ids through `get_items_details`, then build the ledger
request — `shop_id` from the token, `user_id` from the REQUEST BODY
(`transaction_create.user_id`), and one line item per
`zip(item_details.items, transaction_create.item_id_quantity)` pair
carrying the resolved item's id, the requested quantity, the resolved
price and point-allocation percentage — and post it to the ledger. -/
def record_transaction (transaction_create : TransactionCreateFromFrontend)
    (token : List (String × Json)) (env : CashierEnv) :
    Except RouteErr Transaction × List CashierCall :=
  let iids := transaction_create.item_id_quantity.map fun record => record.1
  match get_items_details { item_id_list := iids } token env with
  | (.error e, calls) => (.error e, calls)
  | (.ok item_details, calls) =>
    let shop_id := pyDictGet token "shop_id"
    let data : LedgerRequest :=
      { shop_id := pyStrOfOpt shop_id,
        user_id := transaction_create.user_id,
        items := List.zipWith
          (fun item id_quantity =>
            { item_id := item.iid,
              quantity := id_quantity.2,
              unit_cost := item.price,
              point_allocation_percentage := item.percent_point_allocation })
          item_details.items transaction_create.item_id_quantity }
    match env.ledgerOutcome with
    | .exc c =>
        if c.caughtBy [.timeoutError] then
          (.error (.http 550), calls ++ [.ledgerCreate data])
        else (.error (.uncaught c), calls ++ [.ledgerCreate data])
    | .resp _ transaction => (.ok transaction, calls ++ [.ledgerCreate data])

/-! ## src/face_recognition_route.py -/

/-- The recognition backend's reply to `POST /frontend/recognise`:
`result.json()` with fields `"new"` and `"uid"`. -/
structure RecognitionJson where
  new : Bool
  uid : String
deriving DecidableEq, Repr

/-- The user backend's reply to `POST temp_user`: field `"uid"`. -/
structure TemporalUserJson where
  uid : String
deriving DecidableEq, Repr

/-- Observable outcome of the profile lookup
`GET /user/{recognition_result['uid']}`: an exception during the call,
a 404 status, or a body that validates as a `UserPublicProfile` (the
code parses the body whenever the status is not 404). -/
inductive ProfileLookup where
  | exc (e : PyExcClass)
  | notFound
  | okProfile (p : UserPublicProfile)

/-- One downstream call issued by `handle_face_recognition`. -/
inductive FrCall where
  | recognise                                -- POST /frontend/recognise
  | tempUser                                 -- POST temp_user
  | assignUid (new_uid old_uid : String)     -- POST /frontend/assign_uid
  | getUser (uid : String)                   -- GET /user/{uid}
deriving DecidableEq, Repr

/-- Backend environment of `handle_face_recognition`. -/
structure FaceEnv where
  recogOutcome : ReqOutcome RecognitionJson
  tempOutcome : ReqOutcome TemporalUserJson
  assignOutcome : ReqOutcome Unit
  profileOutcome : ProfileLookup

/-- `handle_face_recognition` (src/face_recognition_route.py:11-69).
This file imports `requests.exceptions.ConnectionError`, so each
`except (ConnectionError, TimeoutError)` clause catches the requests
`ConnectionError` class and the builtin `TimeoutError`.
If the face is new: allocate a temporary uid, re-associate the
recognised uid with it on the recognition backend
(`new_uid` = temporary uid, `old_uid` = recognised uid) and return
`assummed_new=True` with the temporary uid.  If the face is known:
look up the public profile; on 404 return `assummed_new=True` with the
ORIGINAL recognised uid (no temporary-id allocation, no
re-association); otherwise return `assummed_new=False` with the
profile. -/
def handle_face_recognition (env : FaceEnv) :
    Except RouteErr RecognitionResult × List FrCall :=
  match env.recogOutcome with
  | .exc c =>
      if c.caughtBy [.reqConnectionError, .timeoutError] then
        (.error (.http 550), [.recognise])
      else (.error (.uncaught c), [.recognise])
  | .resp _ recognition_result =>
    if recognition_result.new then
      match env.tempOutcome with
      | .exc c =>
          if c.caughtBy [.reqConnectionError, .timeoutError] then
            (.error (.http 550), [.recognise, .tempUser])
          else (.error (.uncaught c), [.recognise, .tempUser])
      | .resp _ temporal_user =>
        let calls := [FrCall.recognise, .tempUser,
                      .assignUid temporal_user.uid recognition_result.uid]
        match env.assignOutcome with
        | .exc c =>
            if c.caughtBy [.reqConnectionError, .timeoutError] then
              (.error (.http 550), calls)
            else (.error (.uncaught c), calls)
        | .resp status _ =>
            if status ≠ 200 then (.error (.http 550), calls)
            else (.ok { user := none, uid := temporal_user.uid,
                        assummed_new := true }, calls)
    else
      let calls := [FrCall.recognise, .getUser recognition_result.uid]
      match env.profileOutcome with
      | .exc c =>
          if c.caughtBy [.reqConnectionError, .timeoutError] then
            (.error (.http 550), calls)
          else (.error (.uncaught c), calls)
      | .notFound =>
          (.ok { user := none, uid := recognition_result.uid,
                 assummed_new := true }, calls)
      | .okProfile p =>
          (.ok { user := some p, uid := recognition_result.uid,
                 assummed_new := false }, calls)

/-! ## Helper lemmas -/

/-- Looking a key up in a duplicate-free string-claims dict mapped into
JSON values returns that key's (string) value. -/
theorem dictFind_map_str (l : List (String × String)) (k v : String)
    (hnd : (l.map Prod.fst).Nodup) (hmem : (k, v) ∈ l) :
    dictFind (l.map fun p => (p.1, Json.str p.2)) k = some (.str v) := by
  induction l with
  | nil => cases hmem
  | cons hd tl ih =>
    simp only [List.map_cons, List.nodup_cons] at hnd
    rcases List.mem_cons.mp hmem with heq | htl
    · cases heq
      simp [dictFind]
    · have hne : hd.1 ≠ k := by
        intro h
        exact hnd.1 (h ▸ List.mem_map_of_mem Prod.fst htl)
      simp only [List.map_cons, dictFind, if_neg hne]
      exact ih hnd.2 htl

/-- Skipping a dict entry whose key differs from the lookup key. -/
theorem dictFind_cons_ne (k : String) (v : Json) (l : List (String × Json))
    (key : String) (h : k ≠ key) : dictFind ((k, v) :: l) key = dictFind l key := by
  simp [dictFind, h]

/-- The `.value` strings of the three access levels are pairwise
distinct. -/
theorem AccessLevel.value_inj : ∀ a b : AccessLevel, a.value = b.value → a = b := by
  intro a b h
  cases a <;> cases b <;> first
    | rfl
    | exact absurd h (by decide)

/-! ## Claim C2 -/

/-- Claim C2: verifying a token issued for `(entity_id, access_level,
extra claims)` against the same secret succeeds and returns exactly the
issued claim set — `entity_id`, the access level's `.value`, and every
extra claim.  The hypotheses state that the extra-claims keyword
mapping has distinct keys none of which collides with the fixed
parameter names, which is exactly what Python enforces at the call
site of `issue_token`. -/
theorem claim_C2_token_roundtrip (e : String) (lvl : AccessLevel)
    (secret : String) (extra : List (String × String))
    (hnd : (extra.map Prod.fst).Nodup)
    (he : "entity_id" ∉ extra.map Prod.fst)
    (ha : "access_level" ∉ extra.map Prod.fst) :
    verify_token (issue_token e lvl secret extra) secret =
      some ([("entity_id", Json.str e), ("access_level", Json.str lvl.value)]
        ++ extra.map fun p => (p.1, Json.str p.2))
    ∧ pyDictGet
        ([("entity_id", Json.str e), ("access_level", Json.str lvl.value)]
          ++ extra.map fun p => (p.1, Json.str p.2)) "entity_id" =
        some (.str e)
    ∧ pyDictGet
        ([("entity_id", Json.str e), ("access_level", Json.str lvl.value)]
          ++ extra.map fun p => (p.1, Json.str p.2)) "access_level" =
        some (.str lvl.value)
    ∧ ∀ p ∈ extra,
        pyDictGet
          ([("entity_id", Json.str e), ("access_level", Json.str lvl.value)]
            ++ extra.map fun p => (p.1, Json.str p.2)) p.1 =
          some (.str p.2) := by
  refine ⟨?_, ?_, ?_, ?_⟩
  · simp [verify_token, issue_token, jwt_encode, jwt_decode]
  · simp [pyDictGet, dictFind]
  · simp [pyDictGet, dictFind]
  · intro p hp
    have h1 : p.1 ≠ "entity_id" := fun h =>
      he (h ▸ List.mem_map_of_mem Prod.fst hp)
    have h2 : p.1 ≠ "access_level" := fun h =>
      ha (h ▸ List.mem_map_of_mem Prod.fst hp)
    have h3 := dictFind_map_str extra p.1 p.2 hnd hp
    unfold pyDictGet
    rw [List.cons_append, List.cons_append, List.nil_append,
        dictFind_cons_ne _ _ _ _ (Ne.symm h1),
        dictFind_cons_ne _ _ _ _ (Ne.symm h2), h3]

/-- Claim C2 witness: issuing for `("42", CASHIER_LEVEL)` with one
extra claim `shop_id := "s7"` and verifying against the same secret
returns exactly those claims. -/
theorem claim_C2_token_roundtrip_witness :
    verify_token (issue_token "42" .CASHIER_LEVEL "topsecret" [("shop_id", "s7")])
        "topsecret" =
      some [("entity_id", Json.str "42"),
            ("access_level", Json.str "Cashier_Level"),
            ("shop_id", Json.str "s7")]
    ∧ pyDictGet [("entity_id", Json.str "42"),
                 ("access_level", Json.str "Cashier_Level"),
                 ("shop_id", Json.str "s7")] "shop_id" = some (.str "s7") := by
  have h := claim_C2_token_roundtrip "42" .CASHIER_LEVEL "topsecret"
    [("shop_id", "s7")] (by simp) (by simp) (by simp)
  refine ⟨by simpa using h.1, ?_⟩
  simpa using h.2.2.2 ("shop_id", "s7") (by simp)

/-! ## Claim C3 -/

/-- Claim C3: for every required access level and secret, the guard
(1) fails with 401 when no token header is present; (2) fails with
403 when the peeked payload segment fails to decode (missing second
segment or undecodable segment); (3) fails with 403 when peek succeeds
on a claim dict carrying `entity_id` but signature verification fails;
(4) fails with 403 when the verified payload's `access_level` claim
differs from the required level's value; and (5) never admits a token
issued (under any secret) at a different tier — it rejects it
with 403. -/
theorem claim_C3_guard (r : AccessLevel) (s : String) :
    validate_header r s none = .http 401
    ∧ (∀ t : TokenWire,
        (t.segs.get? 1 = none ∨
          ∃ seg, t.segs.get? 1 = some seg ∧ decode_segment seg = none) →
        validate_header r s (some t) = .http 403)
    ∧ (∀ (t : TokenWire) (fields : List (String × Json)),
        t.segs.get? 1 = some (.json (.obj fields)) →
        pyDictGet fields "entity_id" ≠ none →
        verify_token t s = none →
        validate_header r s (some t) = .http 403)
    ∧ (∀ (t : TokenWire) (fields decoded : List (String × Json)) (v : Json),
        t.segs.get? 1 = some (.json (.obj fields)) →
        pyDictGet fields "entity_id" ≠ none →
        verify_token t s = some decoded →
        pyDictIndex decoded "access_level" = .ok v →
        jsonEqPyStr v r.value = false →
        validate_header r s (some t) = .http 403)
    ∧ (∀ (e : String) (lvl : AccessLevel) (extra : List (String × String))
          (s2 : String), lvl ≠ r →
        validate_header r s (some (issue_token e lvl s2 extra)) = .http 403) := by
  refine ⟨rfl, ?_, ?_, ?_, ?_⟩
  · intro t h
    rcases h with h | ⟨seg, hseg, hdec⟩
    · simp only [List.get?_eq_getElem?] at h
      simp [validate_header, token_has_access, h]
    · simp only [List.get?_eq_getElem?] at hseg
      simp [validate_header, token_has_access, hseg, hdec]
  · intro t fields hseg hent hver
    simp only [List.get?_eq_getElem?] at hseg
    cases hpg : pyDictGet fields "entity_id" with
    | none => exact absurd hpg hent
    | some j =>
      simp [validate_header, token_has_access, hseg, decode_segment, hpg, hver]
  · intro t fields decoded v hseg hent hver hidx hne
    simp only [List.get?_eq_getElem?] at hseg
    cases hpg : pyDictGet fields "entity_id" with
    | none => exact absurd hpg hent
    | some j =>
      simp [validate_header, token_has_access, hseg, decode_segment, hpg, hver,
        hidx, hne]
  · intro e lvl extra s2 hlvl
    by_cases hs : s2 = s
    · subst hs
      have hv : lvl.value ≠ r.value := fun h => hlvl (AccessLevel.value_inj _ _ h)
      simp [validate_header, token_has_access, issue_token, jwt_encode,
        verify_token, jwt_decode, decode_segment, pyDictGet, dictFind,
        pyDictIndex, jsonEqPyStr, hv]
    · simp [validate_header, token_has_access, issue_token, jwt_encode,
        verify_token, jwt_decode, decode_segment, pyDictGet, dictFind, hs]

/-- Claim C3 witness: a guard requiring `CASHIER_LEVEL` under secret
`"sec"` rejects an absent token with 401 and rejects a token issued at
`USER_LEVEL` under the same secret with 403. -/
theorem claim_C3_guard_witness :
    validate_header .CASHIER_LEVEL "sec" none = .http 401
    ∧ validate_header .CASHIER_LEVEL "sec"
        (some (issue_token "u1" .USER_LEVEL "sec" [])) = .http 403 :=
  ⟨(claim_C3_guard .CASHIER_LEVEL "sec").1,
   (claim_C3_guard .CASHIER_LEVEL "sec").2.2.2.2 "u1" .USER_LEVEL [] "sec"
     (by decide)⟩

/-! ## Claim C4 -/

/-- Claim C4 (code bug): the token verification path does NOT tolerate
every malformed input.  The wire token `"a.MQ.b"` splits into segments
`["a", "MQ", "b"]`; its payload segment `"MQ"` base64-decodes (after
the `"=="` padding the source appends) to `"1"`, which `json.loads`
parses to the integer `1` — not a dict and not `None`.
`token_has_access` then evaluates `payload.get("entity_id")`, which
raises `AttributeError` (`'int' object has no attribute 'get'`); the
exception is not caught and escapes through the guard. -/
theorem claim_C4_attribute_error :
    token_has_access { segs := [.badB64, .json (.num 1), .badB64],
                       signedWith := none } .USER_LEVEL "secret" =
      .error .attributeError
    ∧ validate_header .USER_LEVEL "secret"
        (some { segs := [.badB64, .json (.num 1), .badB64],
                signedWith := none }) =
      .uncaught .attributeError := by
  exact ⟨rfl, rfl⟩

/-! ## Claim C1 -/

/-- Claim C1 counterexample: with two base balance records
`[("s1",100), ("s2",50)]` and a single name `["Acme"]` from the shop
backend, `get_user_balance` does NOT fail with an internal
(`Inconsistent`) error — it succeeds and returns a result list of
length 1, shorter than the base-record list of length 2 (Python `zip`
silently truncates). -/
theorem claim_C1_counterexample :
    get_user_balance [("entity_id", Json.str "u1")]
      { balancesOutcome :=
          .resp 200 { user_id := "u1", shops := [("s1", 100), ("s2", 50)] },
        namesOutcome := .resp 200 ["Acme"] } =
      .ok { user_id := "u1", shops := [("Acme", 100)] }
    ∧ ([("Acme", 100)] : List (String × Int)).length <
        ([("s1", 100), ("s2", 50)] : List (String × Int)).length := by
  exact ⟨rfl, by decide⟩

/-- Claim C1 amended: neither aggregation performs a length check.
Whenever the base-record fetch and the batched name lookup both return
responses, balance enrichment and transaction-history enrichment
succeed with the positional zip of names and base records, whose
length is the minimum of the two lengths — a mismatch is silently
truncated, never turned into an error. -/
theorem claim_C1_zip_truncates (token : List (String × Json)) (uid : Json)
    (hu : pyDictIndex token "entity_id" = .ok uid)
    (benv : BalanceEnv) (st1 st2 : Nat) (ub : UserBalances)
    (names : List String)
    (hb : benv.balancesOutcome = .resp st1 ub)
    (hn : benv.namesOutcome = .resp st2 names)
    (tenv : TransactionsEnv) (st3 st4 : Nat) (txs : List Transaction)
    (names2 : List String)
    (ht : tenv.transactionsOutcome = .resp st3 txs)
    (hn2 : tenv.namesOutcome = .resp st4 names2)
    (off lim : Int) :
    get_user_balance token benv =
      .ok { user_id := uid.pyStr,
            shops := List.zip names (ub.shops.map fun record => record.2) }
    ∧ (List.zip names (ub.shops.map fun record => record.2)).length =
        min names.length ub.shops.length
    ∧ get_user_transactions off lim token tenv =
      .ok { transactions :=
              List.zipWith (fun transaction shop_name =>
                { toTransaction := transaction, shop_name := shop_name })
                txs names2 }
    ∧ (List.zipWith (fun transaction shop_name =>
          ({ toTransaction := transaction, shop_name := shop_name } :
            FrontendTransaction)) txs names2).length =
        min txs.length names2.length := by
  refine ⟨?_, ?_, ?_, ?_⟩
  · simp [get_user_balance, hu, hb, hn]
  · simp [List.length_zip]
  · simp [get_user_transactions, hu, ht, hn2]
  · simp [List.length_zipWith]

/-- Claim C1 amended witness: concrete mismatched instance — two
balance records with one name, and one transaction with zero names. -/
theorem claim_C1_zip_truncates_witness :
    get_user_balance [("entity_id", Json.str "u1")]
      { balancesOutcome :=
          .resp 200 { user_id := "u1", shops := [("s1", 100), ("s2", 50)] },
        namesOutcome := .resp 200 ["Acme"] } =
      .ok { user_id := "u1", shops := List.zip ["Acme"] [100, 50] }
    ∧ get_user_transactions 0 100 [("entity_id", Json.str "u1")]
      { transactionsOutcome :=
          .resp 200 [{ user_id := "u1", shop_id := "s1", tid := "t1",
                       total_cost := 7, points_allocated := 1,
                       performed_at := "2024-01-01", items := [] }],
        namesOutcome := .resp 200 [] } =
      .ok { transactions := [] } := by
  have h := claim_C1_zip_truncates [("entity_id", Json.str "u1")]
    (Json.str "u1") rfl
    { balancesOutcome :=
        .resp 200 { user_id := "u1", shops := [("s1", 100), ("s2", 50)] },
      namesOutcome := .resp 200 ["Acme"] } 200 200
    { user_id := "u1", shops := [("s1", 100), ("s2", 50)] } ["Acme"] rfl rfl
    { transactionsOutcome :=
        .resp 200 [{ user_id := "u1", shop_id := "s1", tid := "t1",
                     total_cost := 7, points_allocated := 1,
                     performed_at := "2024-01-01", items := [] }],
      namesOutcome := .resp 200 [] }
    200 200
    [{ user_id := "u1", shop_id := "s1", tid := "t1", total_cost := 7,
       points_allocated := 1, performed_at := "2024-01-01", items := [] }]
    [] rfl rfl 0 100
  exact ⟨h.1, h.2.2.1⟩

/-! ## Claim C5 -/

/-- Claim C5: in the identity-resolution flow, for every recognition
result: (1) if the face is not new and the profile lookup returns a
valid profile, the output is `assummed_new=false` with the recognised
subject id and the profile; (2) if the face is not new and the lookup
returns 404, the output is `assummed_new=true` with the recognised
subject id while the issued-call list contains no temporary-id
allocation; (3) if the face is new, a temporary id is allocated and
the re-association call carries exactly `new_uid` = temporary id,
`old_uid` = recognised subject id. -/
theorem claim_C5_identity_resolution (env : FaceEnv) (st : Nat)
    (rr : RecognitionJson) (hr : env.recogOutcome = .resp st rr) :
    (∀ p : UserPublicProfile, rr.new = false →
        env.profileOutcome = .okProfile p →
        handle_face_recognition env =
          (.ok { user := some p, uid := rr.uid, assummed_new := false },
           [.recognise, .getUser rr.uid]))
    ∧ (rr.new = false → env.profileOutcome = .notFound →
        handle_face_recognition env =
          (.ok { user := none, uid := rr.uid, assummed_new := true },
           [.recognise, .getUser rr.uid]))
    ∧ (∀ (tu : TemporalUserJson) (st2 : Nat), rr.new = true →
        env.tempOutcome = .resp st2 tu →
        FrCall.tempUser ∈ (handle_face_recognition env).2 ∧
        FrCall.assignUid tu.uid rr.uid ∈ (handle_face_recognition env).2) := by
  refine ⟨?_, ?_, ?_⟩
  · intro p hnew hprof
    simp [handle_face_recognition, hr, hnew, hprof]
  · intro hnew hprof
    simp [handle_face_recognition, hr, hnew, hprof]
  · intro tu st2 hnew htemp
    cases hassign : env.assignOutcome with
    | exc c =>
        by_cases hc : c.caughtBy [.reqConnectionError, .timeoutError] = true
        · simp [handle_face_recognition, hr, hnew, htemp, hassign, hc]
        · simp [handle_face_recognition, hr, hnew, htemp, hassign, hc]
    | resp status u =>
        by_cases hs : status = 200
        · simp [handle_face_recognition, hr, hnew, htemp, hassign, hs]
        · simp [handle_face_recognition, hr, hnew, htemp, hassign, hs]

/-- Claim C5 witness: recognised-and-present, recognised-but-deleted
and brand-new concrete environments behave as claimed. -/
theorem claim_C5_identity_resolution_witness :
    handle_face_recognition
      { recogOutcome := .resp 200 { new := false, uid := "r1" },
        tempOutcome := .resp 200 { uid := "t1" },
        assignOutcome := .resp 200 (),
        profileOutcome :=
          .okProfile { uid := "r1", first_name := "Ann", user_name := "ann" } } =
      (.ok { user := some { uid := "r1", first_name := "Ann", user_name := "ann" },
             uid := "r1", assummed_new := false },
       [.recognise, .getUser "r1"])
    ∧ (FrCall.tempUser ∈
        (handle_face_recognition
          { recogOutcome := .resp 200 { new := true, uid := "r2" },
            tempOutcome := .resp 200 { uid := "t2" },
            assignOutcome := .resp 200 (),
            profileOutcome := .notFound }).2 ∧
       FrCall.assignUid "t2" "r2" ∈
        (handle_face_recognition
          { recogOutcome := .resp 200 { new := true, uid := "r2" },
            tempOutcome := .resp 200 { uid := "t2" },
            assignOutcome := .resp 200 (),
            profileOutcome := .notFound }).2) :=
  ⟨(claim_C5_identity_resolution _ 200 { new := false, uid := "r1" } rfl).1
      { uid := "r1", first_name := "Ann", user_name := "ann" } rfl rfl,
   (claim_C5_identity_resolution _ 200 { new := true, uid := "r2" } rfl).2.2
      { uid := "t2" } 200 rfl rfl⟩

/-! ## Claim C6 -/

/-- Claim C6 counterexample: recognition reports `is_new=false` for
subject `"r1"`, the profile lookup returns "not found", and a
temporary id `"t1"` would be available from the identity backend — yet
the flow does NOT fall through to the new-subject branch: it issues no
temporary-id request and no re-association call, and it returns the
ORIGINAL subject id `"r1"` (not a new temporary id) with
`assummed_new=true`. -/
theorem claim_C6_counterexample :
    handle_face_recognition
      { recogOutcome := .resp 200 { new := false, uid := "r1" },
        tempOutcome := .resp 200 { uid := "t1" },
        assignOutcome := .resp 200 (),
        profileOutcome := .notFound } =
      (.ok { user := none, uid := "r1", assummed_new := true },
       [.recognise, .getUser "r1"])
    ∧ FrCall.tempUser ∉ [FrCall.recognise, FrCall.getUser "r1"]
    ∧ FrCall.assignUid "t1" "r1" ∉ [FrCall.recognise, FrCall.getUser "r1"] := by
  exact ⟨rfl, by decide, by decide⟩

/-- Claim C6 amended: whenever the recognition backend reports
`is_new=false` and the profile lookup returns "not found", the flow
returns `assummed_new=true` with the ORIGINAL recognised subject id,
issuing exactly the recognition call and the profile lookup — no
temporary-id allocation and no re-association call. -/
theorem claim_C6_not_found_keeps_uid (env : FaceEnv) (st : Nat)
    (rr : RecognitionJson) (hr : env.recogOutcome = .resp st rr)
    (hnew : rr.new = false) (hprof : env.profileOutcome = .notFound) :
    handle_face_recognition env =
      (.ok { user := none, uid := rr.uid, assummed_new := true },
       [.recognise, .getUser rr.uid]) := by
  simp [handle_face_recognition, hr, hnew, hprof]

/-- Claim C6 amended witness. -/
theorem claim_C6_not_found_keeps_uid_witness :
    handle_face_recognition
      { recogOutcome := .resp 200 { new := false, uid := "r9" },
        tempOutcome := .resp 200 { uid := "t9" },
        assignOutcome := .resp 200 (),
        profileOutcome := .notFound } =
      (.ok { user := none, uid := "r9", assummed_new := true },
       [.recognise, .getUser "r9"]) :=
  claim_C6_not_found_keeps_uid _ 200 { new := false, uid := "r9" } rfl rfl rfl

/-! ## Claims C7 and C8 -/

/-- Swapping the zip orientation of the line-item build: when the
resolved inventory records match the requested `(item_id, quantity)`
pairs in length and id order, building line items from
`zip(items, pairs)` with the resolved item's id equals building them
from `zip(pairs, items)` with the requested pair's id. -/
theorem zipWith_line_items_swap :
    ∀ (items : List ItemInventory) (pairs : List (String × Int)),
      items.length = pairs.length →
      (∀ (i : Nat) (h1 : i < items.length) (h2 : i < pairs.length),
        (items.get ⟨i, h1⟩).iid = (pairs.get ⟨i, h2⟩).1) →
      List.zipWith (fun item idq =>
          ({ item_id := item.iid, quantity := idq.2, unit_cost := item.price,
             point_allocation_percentage := item.percent_point_allocation } :
            LineItem)) items pairs =
        List.zipWith (fun idq item =>
          ({ item_id := idq.1, quantity := idq.2, unit_cost := item.price,
             point_allocation_percentage := item.percent_point_allocation } :
            LineItem)) pairs items := by
  intro items
  induction items with
  | nil =>
    intro pairs hlen _
    cases pairs with
    | nil => rfl
    | cons p ps => simp at hlen
  | cons it its ih =>
    intro pairs hlen hidx
    cases pairs with
    | nil => simp at hlen
    | cons pq pqs =>
      have h0 : it.iid = pq.1 := hidx 0 (by simp) (by simp)
      have htl : its.length = pqs.length := by
        simpa using hlen
      have hidx' : ∀ (i : Nat) (h1 : i < its.length) (h2 : i < pqs.length),
          (its.get ⟨i, h1⟩).iid = (pqs.get ⟨i, h2⟩).1 := by
        intro i h1 h2
        exact hidx (i + 1) (by simpa using Nat.succ_lt_succ h1)
          (by simpa using Nat.succ_lt_succ h2)
      simp only [List.zipWith, h0, ih pqs htl hidx']

/-- The downstream calls `record_transaction` issues once the token
carries a truthy `shop_id` and the batched item lookup replies: the
item lookup with the requested ids, then the ledger post whose body
has the token's shop id, the REQUEST BODY's `user_id`, and line items
zipped positionally from the lookup reply and the requested pairs. -/
theorem record_transaction_trace (tc : TransactionCreateFromFrontend)
    (token : List (String × Json)) (env : CashierEnv) (sid : Json)
    (hs : pyDictGet token "shop_id" = some sid) (htr : sid.pyTruthy = true)
    (st : Nat) (items : List ItemInventory)
    (hit : env.itemsOutcome = .resp st items) :
    (record_transaction tc token env).2 =
      [.itemsGet (tc.item_id_quantity.map fun record => record.1),
       .ledgerCreate
         { shop_id := sid.pyStr,
           user_id := tc.user_id,
           items := List.zipWith (fun item idq =>
             { item_id := item.iid, quantity := idq.2, unit_cost := item.price,
               point_allocation_percentage := item.percent_point_allocation })
             items tc.item_id_quantity }] := by
  cases hl : env.ledgerOutcome with
  | exc c =>
    cases hc : c.caughtBy [.timeoutError] <;>
      simp [record_transaction, get_items_details, hs, htr, hit, hl, hc,
        pyStrOfOpt]
  | resp st2 t =>
    simp [record_transaction, get_items_details, hs, htr, hit, hl, pyStrOfOpt]

/-- Claim C7: when the token carries a truthy `shop_id`, the inventory
lookup replies with as many records as there are requested
`(item_id, quantity)` pairs, and the records match the pairs' ids in
order, the ledger request contains one line item per pair, in order,
carrying that pair's item id, the requested quantity, the resolved
price as unit cost and the resolved point-allocation percentage. -/
theorem claim_C7_line_items (tc : TransactionCreateFromFrontend)
    (token : List (String × Json)) (env : CashierEnv) (sid : Json)
    (hs : pyDictGet token "shop_id" = some sid) (htr : sid.pyTruthy = true)
    (st : Nat) (items : List ItemInventory)
    (hit : env.itemsOutcome = .resp st items)
    (hlen : items.length = tc.item_id_quantity.length)
    (hidx : ∀ (i : Nat) (h1 : i < items.length)
        (h2 : i < tc.item_id_quantity.length),
        (items.get ⟨i, h1⟩).iid = (tc.item_id_quantity.get ⟨i, h2⟩).1) :
    (record_transaction tc token env).2 =
      [.itemsGet (tc.item_id_quantity.map fun record => record.1),
       .ledgerCreate
         { shop_id := sid.pyStr,
           user_id := tc.user_id,
           items := List.zipWith (fun idq item =>
             { item_id := idq.1, quantity := idq.2, unit_cost := item.price,
               point_allocation_percentage := item.percent_point_allocation })
             tc.item_id_quantity items }] := by
  rw [record_transaction_trace tc token env sid hs htr st items hit,
    zipWith_line_items_swap items tc.item_id_quantity hlen hidx]

/-- Claim C7 witness: the spec's own example — items `[(A,2), (B,1)]`
with lookup `[{A, price=10, pct=5}, {B, price=20, pct=0}]` yields line
items `[(A, 2, 10, 5), (B, 1, 20, 0)]`. -/
theorem claim_C7_line_items_witness :
    (record_transaction { user_id := "u1", item_id_quantity := [("A", 2), ("B", 1)] }
        [("entity_id", Json.str "c1"), ("shop_id", Json.str "s1")]
        { inventoryOutcome := .resp 200 { items := [], total := 0 },
          itemsOutcome := .resp 200
            [{ name := "a", description := "", photo_url := none, price := 10,
               percent_point_allocation := 5, shop_id := "s1", iid := "A" },
             { name := "b", description := "", photo_url := none, price := 20,
               percent_point_allocation := 0, shop_id := "s1", iid := "B" }],
          ledgerOutcome := .resp 200
            { user_id := "u1", shop_id := "s1", tid := "t1", total_cost := 40,
              points_allocated := 1, performed_at := "2024-01-01",
              items := [] } }).2 =
      [.itemsGet ["A", "B"],
       .ledgerCreate
         { shop_id := "s1", user_id := "u1",
           items := [{ item_id := "A", quantity := 2, unit_cost := 10,
                       point_allocation_percentage := 5 },
                     { item_id := "B", quantity := 1, unit_cost := 20,
                       point_allocation_percentage := 0 }] }] := by
  have h := claim_C7_line_items
    { user_id := "u1", item_id_quantity := [("A", 2), ("B", 1)] }
    [("entity_id", Json.str "c1"), ("shop_id", Json.str "s1")]
    { inventoryOutcome := .resp 200 { items := [], total := 0 },
      itemsOutcome := .resp 200
        [{ name := "a", description := "", photo_url := none, price := 10,
           percent_point_allocation := 5, shop_id := "s1", iid := "A" },
         { name := "b", description := "", photo_url := none, price := 20,
           percent_point_allocation := 0, shop_id := "s1", iid := "B" }],
      ledgerOutcome := .resp 200
        { user_id := "u1", shop_id := "s1", tid := "t1", total_cost := 40,
          points_allocated := 1, performed_at := "2024-01-01", items := [] } }
    (Json.str "s1") rfl rfl 200
    [{ name := "a", description := "", photo_url := none, price := 10,
       percent_point_allocation := 5, shop_id := "s1", iid := "A" },
     { name := "b", description := "", photo_url := none, price := 20,
       percent_point_allocation := 0, shop_id := "s1", iid := "B" }]
    rfl rfl (by decide)
  simpa using h

/-- Claim C8 counterexample: the buyer id the ledger receives is the
request body's `user_id` (`"u9"`), a value that appears nowhere in the
caller's verified token claims (`entity_id="c1"`, `shop_id="s1"`) —
so it is NOT taken from the verified token context. -/
theorem claim_C8_counterexample :
    (record_transaction { user_id := "u9", item_id_quantity := [("i1", 2)] }
        [("entity_id", Json.str "c1"), ("shop_id", Json.str "s1")]
        { inventoryOutcome := .resp 200 { items := [], total := 0 },
          itemsOutcome := .resp 200
            [{ name := "n", description := "d", photo_url := none, price := 10,
               percent_point_allocation := 5, shop_id := "s1", iid := "i1" }],
          ledgerOutcome := .resp 200
            { user_id := "u9", shop_id := "s1", tid := "t1", total_cost := 20,
              points_allocated := 1, performed_at := "2024-01-01",
              items := [] } }).2 =
      [.itemsGet ["i1"],
       .ledgerCreate
         { shop_id := "s1", user_id := "u9",
           items := [{ item_id := "i1", quantity := 2, unit_cost := 10,
                       point_allocation_percentage := 5 }] }]
    ∧ ∀ p ∈ [("entity_id", Json.str "c1"), ("shop_id", Json.str "s1")],
        p.2 ≠ Json.str "u9" := by
  refine ⟨rfl, ?_⟩
  intro p hp
  simp only [List.mem_cons, List.not_mem_nil, or_false] at hp
  rcases hp with rfl | rfl <;> simp

/-- Claim C8 amended: the buyer id placed in the ledger-backend
request is taken from the REQUEST BODY (`transaction_create.user_id`);
only the shop id comes from the verified token context. -/
theorem claim_C8_user_id_from_body (tc : TransactionCreateFromFrontend)
    (token : List (String × Json)) (env : CashierEnv) (sid : Json)
    (hs : pyDictGet token "shop_id" = some sid) (htr : sid.pyTruthy = true)
    (st : Nat) (items : List ItemInventory)
    (hit : env.itemsOutcome = .resp st items) :
    (record_transaction tc token env).2 =
      [.itemsGet (tc.item_id_quantity.map fun record => record.1),
       .ledgerCreate
         { shop_id := sid.pyStr,
           user_id := tc.user_id,
           items := List.zipWith (fun item idq =>
             { item_id := item.iid, quantity := idq.2, unit_cost := item.price,
               point_allocation_percentage := item.percent_point_allocation })
             items tc.item_id_quantity }] :=
  record_transaction_trace tc token env sid hs htr st items hit

/-- Claim C8 amended witness: with body `user_id="u9"` and token
`entity_id="c1"`, the ledger request carries `user_id="u9"`. -/
theorem claim_C8_user_id_from_body_witness :
    (record_transaction { user_id := "u9", item_id_quantity := [] }
        [("entity_id", Json.str "c1"), ("shop_id", Json.str "s1")]
        { inventoryOutcome := .resp 200 { items := [], total := 0 },
          itemsOutcome := .resp 200 [],
          ledgerOutcome := .resp 200
            { user_id := "u9", shop_id := "s1", tid := "t1", total_cost := 0,
              points_allocated := 0, performed_at := "2024-01-01",
              items := [] } }).2 =
      [.itemsGet [], .ledgerCreate { shop_id := "s1", user_id := "u9",
                                     items := [] }] := by
  have h := claim_C8_user_id_from_body
    { user_id := "u9", item_id_quantity := [] }
    [("entity_id", Json.str "c1"), ("shop_id", Json.str "s1")]
    { inventoryOutcome := .resp 200 { items := [], total := 0 },
      itemsOutcome := .resp 200 [],
      ledgerOutcome := .resp 200
        { user_id := "u9", shop_id := "s1", tid := "t1", total_cost := 0,
          points_allocated := 0, performed_at := "2024-01-01", items := [] } }
    (Json.str "s1") rfl rfl 200 [] rfl
  simpa using h

/-! ## Claim C9 -/

/-- Claim C9 (code bug): a timeout or connection failure of the
downstream call does NOT get mapped to the service-unavailable
outcome.  `login_user` wraps its backend call in
`except TimeoutError`, but the `requests` library signals timeouts and
connection failures with `requests.exceptions` classes, none of which
subclasses the builtin `TimeoutError` — so for every exception class
in the `RequestException` hierarchy the handler's `except` clause does
not match, the exception escapes unhandled, and the documented
HTTP 550 "service unavailable" mapping is never produced. -/
theorem claim_C9_timeout_uncaught (req : UserLogInRequest) (secret : String)
    (c : PyExcClass) (hreq : c.isSubclassOf .requestException = true) :
    login_user req secret { loginOutcome := .exc c } = .error (.uncaught c)
    ∧ login_user req secret { loginOutcome := .exc c } ≠
        .error (.http 550) := by
  have hnc : c.caughtBy [.timeoutError] = false := by
    cases c <;> simp_all [PyExcClass.isSubclassOf, PyExcClass.ancestors,
      PyExcClass.caughtBy]
  constructor
  · simp [login_user, hnc]
  · simp [login_user, hnc]

/-- Claim C9 witness: a read timeout of the user-backend login call
(`requests.exceptions.ReadTimeout`) escapes `login_user` unhandled
instead of becoming HTTP 550. -/
theorem claim_C9_timeout_uncaught_witness :
    login_user { email := "a@b.c", password := "pw" } "s"
        { loginOutcome := .exc .reqReadTimeout } =
      .error (.uncaught .reqReadTimeout) :=
  (claim_C9_timeout_uncaught { email := "a@b.c", password := "pw" } "s"
    .reqReadTimeout rfl).1

/-! ## Claim C10 -/

/-- Claim C10: for every request admitted by the cashier-tier guard
whose claim set has no `shop_id` claim (or an empty-string one), the
inventory listing and the item-details lookup fail with HTTP 401 and
issue no downstream call at all. -/
theorem claim_C10_missing_shop_id (token : List (String × Json))
    (env : CashierEnv) (sel : SelectedItems)
    (h : pyDictGet token "shop_id" = none ∨
         pyDictGet token "shop_id" = some (.str "")) :
    get_inventory token env = (.error (.http 401), [])
    ∧ get_items_details sel token env = (.error (.http 401), []) := by
  rcases h with h | h <;>
    exact ⟨by simp [get_inventory, h, Json.pyTruthy],
           by simp [get_items_details, h, Json.pyTruthy]⟩

/-- Claim C10 witness: a cashier token with `entity_id` only (no
`shop_id`) gets 401 from both routes with no downstream call. -/
theorem claim_C10_missing_shop_id_witness :
    get_inventory [("entity_id", Json.str "c1")]
      { inventoryOutcome := .resp 200 { items := [], total := 0 },
        itemsOutcome := .resp 200 [],
        ledgerOutcome := .exc .reqReadTimeout } =
      (.error (.http 401), [])
    ∧ get_items_details { item_id_list := ["i1"] }
        [("entity_id", Json.str "c1")]
        { inventoryOutcome := .resp 200 { items := [], total := 0 },
          itemsOutcome := .resp 200 [],
          ledgerOutcome := .exc .reqReadTimeout } =
      (.error (.http 401), []) :=
  claim_C10_missing_shop_id [("entity_id", Json.str "c1")]
    { inventoryOutcome := .resp 200 { items := [], total := 0 },
      itemsOutcome := .resp 200 [],
      ledgerOutcome := .exc .reqReadTimeout }
    { item_id_list := ["i1"] } (Or.inl rfl)

end Gateway
